import Mathlib

/-
Verification development for the browser game client in src/game.js.
Each definition is a shallow embedding of the corresponding JavaScript
code; numbers that JavaScript stores as doubles are modelled as Int
(millisecond counters, score counters) or as rationals (world and
screen coordinates), and JavaScript Map and Set values are modelled as
lists in insertion order.
-/

namespace GameSpec

/-! ## Score Ledger (GameClient.loadScore / saveScore / updateTotalScore /
addKill / addDeath / resetScore, src/game.js lines 459-497) -/

structure Score where
  kills : Int
  deaths : Int
  total : Int
deriving Repr, DecidableEq

/-- Embedding of GameClient.updateTotalScore: this.score.total =
this.score.kills - this.score.deaths. -/
def updateTotalScore (s : Score) : Score :=
  { s with total := s.kills - s.deaths }

/-- Embedding of GameClient.addKill: this.score.kills++ followed by
updateTotalScore (saveScore only persists the resulting record). -/
def addKill (s : Score) : Score :=
  updateTotalScore { s with kills := s.kills + 1 }

/-- Embedding of GameClient.addDeath: this.score.deaths++ followed by
updateTotalScore. -/
def addDeath (s : Score) : Score :=
  updateTotalScore { s with deaths := s.deaths + 1 }

/-- Embedding of GameClient.resetScore: this.score = {kills 0, deaths 0,
total 0}. -/
def resetScore : Score :=
  ⟨0, 0, 0⟩

/-- Embedding of GameClient.loadScore. The persisted localStorage slot is
modelled as: none = key absent (getItem returns null, falsy, so the field
keeps its current value), some none = key present but its string is not
parseable as JSON (JSON.parse throws, and loadScore has no try/catch, so
the exception escapes: modelled as Except.error), some (some rec) = key
present and parses to a score record (the code then runs
updateTotalScore). The parameter current is the value this.score holds
when loadScore runs (the constructor initialises it to {0,0,0}). -/
def loadScore (stored : Option (Option Score)) (current : Score) :
    Except Unit Score :=
  match stored with
  | none => Except.ok current
  | some none => Except.error ()
  | some (some rec) => Except.ok (updateTotalScore rec)

/-- Score operations that can occur in a call sequence, for claims over
sequences of addKill and addDeath calls. -/
inductive ScoreOp
  | kill
  | death
deriving Repr, DecidableEq

def applyScoreOp (s : Score) : ScoreOp → Score
  | ScoreOp.kill => addKill s
  | ScoreOp.death => addDeath s

/-! ## Attack cooldown trace model (GameClient.update lines 449-457,
GameClient.attackPlayer lines 416-438, GameClient.handleAttack lines
734-750) -/

/-- Events that can touch this.attackCooldown after an attack is issued:
a render-loop tick (GameClient.update), the arrival of a server attack
message (GameClient.handleAttack, carrying its success and kill flags),
or the issuing of a new attack (GameClient.attackPlayer). -/
inductive CdEvent
  | tick
  | serverAttackResult (success kill : Bool)
  | attackIssued
deriving Repr, DecidableEq

/-- Embedding of attackCooldownTime = 1000 (one second). -/
def attackCooldownTime : Int := 1000

/-- How each event transforms this.attackCooldown. tick follows
GameClient.update: if (attackCooldown > 0) { attackCooldown -= 16; if
(attackCooldown < 0) attackCooldown = 0 }. serverAttackResult follows
GameClient.handleAttack, which calls addKill / simulatePlayerDeath but
never writes attackCooldown. attackIssued follows GameClient.attackPlayer,
which sets attackCooldown = attackCooldownTime. -/
def cooldownStep (c : Int) : CdEvent → Int
  | CdEvent.tick =>
      if c > 0 then
        (if c - 16 < 0 then 0 else c - 16)
      else c
  | CdEvent.serverAttackResult _ _ => c
  | CdEvent.attackIssued => attackCooldownTime

/-- Cooldown value reached from the moment attackPlayer set it to
attackCooldownTime, after the given list of events has run. -/
def cooldownAfterAttack (evs : List CdEvent) : Int :=
  List.foldl cooldownStep attackCooldownTime evs

/-- Embedding of the setTimeout callback armed by attackPlayer: when the
1000 ms timer fires, the fallback body runs its addKill and
simulatePlayerDeath synthesis exactly when this.attackCooldown > 0. -/
def fallbackFires (evs : List CdEvent) : Bool :=
  decide (0 < cooldownAfterAttack evs)

def countTicks : List CdEvent → Nat
  | [] => 0
  | CdEvent.tick :: rest => countTicks rest + 1
  | _ :: rest => countTicks rest

/-! ## Avatar animation-frame selection (Avatar.getCurrentFrame, src/game.js
lines 64-95) -/

/-- The three stored frame sequences of an Avatar (this.frames). Images
are modelled as opaque Nat identifiers, so that returning the same image
object is returning the same identifier. -/
structure FrameSets where
  north : List Nat
  south : List Nat
  east : List Nat
deriving Repr, DecidableEq

/-- The animation-relevant fields of an Avatar instance: facing is kept as
the raw string the server sent (the switch in getCurrentFrame has a
default arm), together with isMoving, animationFrame and the frames. -/
structure AvatarAnim where
  facing : String
  isMoving : Bool
  animationFrame : Nat
  frames : FrameSets
deriving Repr, DecidableEq

/-- The switch statement of Avatar.getCurrentFrame: which frame sequence
is selected for a facing value, and whether flipHorizontal is set. The
west arm reuses the east sequence with flipHorizontal = true; the default
arm selects south. -/
def frameSetFor (a : AvatarAnim) : List Nat × Bool :=
  match a.facing with
  | "north" => (a.frames.north, false)
  | "south" => (a.frames.south, false)
  | "east" => (a.frames.east, false)
  | "west" => (a.frames.east, true)
  | _ => (a.frames.south, false)

/-- The tail of Avatar.getCurrentFrame, on an already selected frame
sequence: if the sequence is non-empty, return the frame at index
(isMoving ? animationFrame : 0) modulo the sequence length together with
the flip flag, otherwise return null (modelled as none). -/
def pickFrame (fs : List Nat) (mv : Bool) (af : Nat) (flip : Bool) :
    Option (Nat × Bool) :=
  if h : 0 < fs.length then
    some (fs.get ⟨(if mv then af else 0) % fs.length, Nat.mod_lt _ h⟩, flip)
  else
    none

/-- Embedding of Avatar.getCurrentFrame: run the facing switch, then pick
the frame from the selected sequence. -/
def getCurrentFrame (a : AvatarAnim) : Option (Nat × Bool) :=
  pickFrame (frameSetFor a).1 a.isMoving a.animationFrame (frameSetFor a).2

/-! ## Combat roster and click targeting (GameClient.findPlayerInRange
lines 396-414, GameClient.handleCanvasClick lines 370-394,
GameClient.attackPlayer lines 416-438, GameClient.renderAttackRangeIndicator
lines 968-1016) -/

/-- The fields of an Avatar that the combat code reads: id, world
position, and the isDead flag. World coordinates are rationals. -/
structure PAvatar where
  id : Nat
  x : ℚ
  y : ℚ
  isDead : Bool
deriving Repr, DecidableEq

/-- Embedding of this.attackRange = 50 pixels. -/
def attackRange : ℚ := 50

/-- Squared Euclidean distance from an avatar to a world point. The
source computes Math.sqrt(Math.pow(avatar.x - x, 2) + Math.pow(avatar.y -
y, 2)) and compares distances with strict or non-strict less-than against
non-negative bounds; since the square root is strictly monotone on
non-negative reals, comparing squared distances against squared bounds is
the same comparison, and keeps every definition executable over ℚ. -/
def distSq (a : PAvatar) (x y : ℚ) : ℚ :=
  (a.x - x) ^ 2 + (a.y - y) ^ 2

/-- The loop body of GameClient.findPlayerInRange: the accumulator holds
closestPlayer and the square of closestDistance (initially
attackRange ^ 2); an avatar equal to myPlayerId is skipped, and the
accumulator is replaced exactly when the strict comparison
distance < closestDistance holds. -/
def findAux (myId : Nat) (x y : ℚ) :
    List PAvatar → Option PAvatar × ℚ → Option PAvatar × ℚ
  | [], acc => acc
  | a :: rest, acc =>
      if a.id = myId then
        findAux myId x y rest acc
      else if distSq a x y < acc.2 then
        findAux myId x y rest (some a, distSq a x y)
      else
        findAux myId x y rest acc

/-- Embedding of GameClient.findPlayerInRange: fold the loop body over the
roster in map-iteration order, starting from closestPlayer = null and
closestDistance = attackRange, and return closestPlayer. -/
def findPlayerInRange (myId : Nat) (players : List PAvatar) (x y : ℚ) :
    Option PAvatar :=
  (findAux myId x y players (none, attackRange ^ 2)).1

/-! ## Game client state (GameClient constructor lines 180-229) and the
handlers the claims touch -/

inductive GState
  | playing
  | paused
  | stopped
deriving Repr, DecidableEq

/-- Outbound action messages the client can send over the websocket. -/
inductive OutMsg
  | move (direction : String)
  | stop
  | attack (targetId : Nat)
deriving Repr, DecidableEq

/-- The fields of the GameClient instance that the verified claims read
or write. JavaScript Map players is a list of avatars in insertion order
(keys equal the id fields); JavaScript Set pressedKeys is a duplicate-free
list in insertion order. The websocket is an opaque handle number drawn
from the wsNext counter, so that a reconnect installs a fresh handle. -/
structure GameClientState where
  gameState : GState
  pauseStartTime : Int
  totalPauseTime : Int
  pressedKeys : List String
  attackCooldown : Int
  score : Score
  players : List PAvatar
  myPlayerId : Option Nat
  viewportInitialized : Bool
  viewportOffsetX : ℚ
  viewportOffsetY : ℚ
  websocket : Option Nat
  wsNext : Nat
  connected : Bool
  canvasWidth : ℚ
  canvasHeight : ℚ
  worldWidth : ℚ
  worldHeight : ℚ
deriving Repr, DecidableEq

/-- The GameClient constructor defaults (before any server message):
world 2048 x 2048, empty roster, zero score, playing, no connection. The
canvas dimensions come from the window. -/
def initState (cw ch : ℚ) : GameClientState :=
  { gameState := GState.playing
    pauseStartTime := 0
    totalPauseTime := 0
    pressedKeys := []
    attackCooldown := 0
    score := ⟨0, 0, 0⟩
    players := []
    myPlayerId := none
    viewportInitialized := false
    viewportOffsetX := 0
    viewportOffsetY := 0
    websocket := none
    wsNext := 0
    connected := false
    canvasWidth := cw
    canvasHeight := ch
    worldWidth := 2048
    worldHeight := 2048 }

/-- JavaScript truthiness of this.myPlayerId: null is falsy and so is the
number 0, so guards of the form (!this.myPlayerId) also reject a player
id of 0. -/
def truthyId : Option Nat → Bool
  | none => false
  | some n => decide (n ≠ 0)

/-- Embedding of GameClient.screenToWorld. -/
def screenToWorld (st : GameClientState) (sx sy : ℚ) : ℚ × ℚ :=
  (sx + st.viewportOffsetX, sy + st.viewportOffsetY)

/-- Embedding of GameClient.worldToScreen. -/
def worldToScreen (st : GameClientState) (wx wy : ℚ) : ℚ × ℚ :=
  (wx - st.viewportOffsetX, wy - st.viewportOffsetY)

/-- this.players.get(this.myPlayerId): a Map lookup with a possibly null
key; returns the avatar stored under the local player id, if any. -/
def lookupMyAvatar (st : GameClientState) : Option PAvatar :=
  st.myPlayerId.bind (fun m => st.players.find? (fun a => a.id = m))

/-! ### Input Controller (GameClient.handleKeyDown lines 285-297,
GameClient.handleKeyUp lines 299-313, sendMoveCommand / sendStopCommand
lines 340-361) -/

/-- Embedding of this.keyMap. -/
def keyMap (code : String) : Option String :=
  match code with
  | "ArrowUp" => some "up"
  | "ArrowDown" => some "down"
  | "ArrowLeft" => some "left"
  | "ArrowRight" => some "right"
  | _ => none

/-- JavaScript Set.add: appends the element unless already present. -/
def insertKey (code : String) (ks : List String) : List String :=
  if code ∈ ks then ks else ks ++ [code]

/-- Embedding of GameClient.sendMoveCommand: sends one move action when
connected, otherwise nothing. -/
def sendMoveCommand (st : GameClientState) (direction : String) : List OutMsg :=
  if st.connected then [OutMsg.move direction] else []

/-- Embedding of GameClient.sendStopCommand. -/
def sendStopCommand (st : GameClientState) : List OutMsg :=
  if st.connected then [OutMsg.stop] else []

/-- Embedding of GameClient.handleKeyDown: ignore events unless playing,
ignore unmapped keys, add the key code to pressedKeys, then send a move
command for its direction. -/
def handleKeyDown (st : GameClientState) (code : String) :
    GameClientState × List OutMsg :=
  if st.gameState ≠ GState.playing then (st, [])
  else
    match keyMap code with
    | none => (st, [])
    | some direction =>
        let st2 := { st with pressedKeys := insertKey code st.pressedKeys }
        (st2, sendMoveCommand st2 direction)

/-- Embedding of GameClient.handleKeyUp: ignore events unless playing,
ignore unmapped keys, delete the key code from pressedKeys, and send a
stop command exactly when the set became empty. -/
def handleKeyUp (st : GameClientState) (code : String) :
    GameClientState × List OutMsg :=
  if st.gameState ≠ GState.playing then (st, [])
  else
    match keyMap code with
    | none => (st, [])
    | some _ =>
        let st2 := { st with pressedKeys := st.pressedKeys.filter (fun k => k ≠ code) }
        (st2, if st2.pressedKeys.length = 0 then sendStopCommand st2 else [])

def countStops (msgs : List OutMsg) : Nat :=
  (msgs.filter (fun m => m = OutMsg.stop)).length

/-! ### Combat click handling -/

/-- Embedding of GameClient.attackPlayer without its setTimeout arm (the
fallback timer is the CdEvent trace model above): bail out when not
connected, otherwise send the attack action and set attackCooldown =
attackCooldownTime. -/
def attackPlayer (st : GameClientState) (targetId : Nat) :
    GameClientState × List OutMsg :=
  if st.connected then
    ({ st with attackCooldown := attackCooldownTime }, [OutMsg.attack targetId])
  else (st, [])

/-- Embedding of GameClient.handleCanvasClick: the guard
(!this.connected || !this.myPlayerId || this.gameState !== 'playing')
uses JavaScript truthiness of myPlayerId; then an active cooldown makes
the click a no-op; otherwise the click point is converted to world
coordinates and the nearest in-range player, if any, is attacked. -/
def handleCanvasClick (st : GameClientState) (clickX clickY : ℚ) :
    GameClientState × List OutMsg :=
  if st.connected = false ∨ truthyId st.myPlayerId = false ∨
      st.gameState ≠ GState.playing then (st, [])
  else if st.attackCooldown > 0 then (st, [])
  else
    match st.myPlayerId with
    | none => (st, [])
    | some m =>
        let wp := screenToWorld st clickX clickY
        match findPlayerInRange m st.players wp.1 wp.2 with
        | some target => attackPlayer st target.id
        | none => (st, [])

/-- Embedding of the in-range census of
GameClient.renderAttackRangeIndicator: none when the indicator is not
drawn at all (falsy myPlayerId, or the local avatar is missing from the
roster); otherwise the number of roster avatars that are not the local
player, not dead, and at distance at most attackRange (non-strict) from
the local avatar. -/
def playersInRangeCount (st : GameClientState) : Option Nat :=
  if truthyId st.myPlayerId = false then none
  else
    match lookupMyAvatar st with
    | none => none
    | some my =>
        some ((st.players.filter (fun a =>
          a.id ≠ my.id ∧ a.isDead = false ∧
            distSq a my.x my.y ≤ attackRange ^ 2)).length)

/-! ### Viewport (GameClient.centerViewportOnMyAvatar lines 792-817,
GameClient.updateViewport lines 819-833) -/

/-- Math.min on two (non-NaN) numbers. -/
def jsMin (a b : ℚ) : ℚ :=
  if a ≤ b then a else b

/-- Math.max on two (non-NaN) numbers. -/
def jsMax (a b : ℚ) : ℚ :=
  if a ≤ b then b else a

/-- Math.max(0, Math.min(v, bound)), the clamp used on both viewport
axes. -/
def clampOffset (v bound : ℚ) : ℚ :=
  jsMax 0 (jsMin v bound)

/-- Embedding of GameClient.centerViewportOnMyAvatar: bail out when the
local avatar is unknown or the one-shot guard viewportInitialized is
already set; when the world fits inside the canvas on both axes force the
offset to (0,0); otherwise center the avatar and clamp both axes to world
bounds; in every non-bailout case set the guard. -/
def centerViewportOnMyAvatar (st : GameClientState) : GameClientState :=
  match lookupMyAvatar st with
  | none => st
  | some my =>
      if st.viewportInitialized then st
      else if st.worldWidth ≤ st.canvasWidth ∧ st.worldHeight ≤ st.canvasHeight then
        { st with
          viewportOffsetX := 0
          viewportOffsetY := 0
          viewportInitialized := true }
      else
        { st with
          viewportOffsetX := clampOffset (my.x - st.canvasWidth / 2)
            (st.worldWidth - st.canvasWidth)
          viewportOffsetY := clampOffset (my.y - st.canvasHeight / 2)
            (st.worldHeight - st.canvasHeight)
          viewportInitialized := true }

/-- Embedding of GameClient.updateViewport (the resize recalculation):
only acts when myPlayerId is truthy, the viewport is initialized and the
local avatar is present; then reapplies the centering formula with the
clamp, without the one-shot guard. -/
def updateViewport (st : GameClientState) : GameClientState :=
  if truthyId st.myPlayerId = true ∧ st.viewportInitialized = true then
    match lookupMyAvatar st with
    | none => st
    | some my =>
        { st with
          viewportOffsetX := clampOffset (my.x - st.canvasWidth / 2)
            (st.worldWidth - st.canvasWidth)
          viewportOffsetY := clampOffset (my.y - st.canvasHeight / 2)
            (st.worldHeight - st.canvasHeight) }
  else st

/-- The viewport bound invariant stated by the specification: both
offsets lie between 0 and the positive part of world minus canvas. -/
def viewportOffsetWithinBounds (st : GameClientState) : Prop :=
  0 ≤ st.viewportOffsetX ∧
    st.viewportOffsetX ≤ max 0 (st.worldWidth - st.canvasWidth) ∧
    0 ≤ st.viewportOffsetY ∧
    st.viewportOffsetY ≤ max 0 (st.worldHeight - st.canvasHeight)

/-! ### Session restart (GameClient.restartGame lines 546-579,
GameClient.connectToServer lines 581-612) -/

/-- Embedding of GameClient.connectToServer: the old websocket handle is
closed and dropped, and a fresh WebSocket object is installed. The
connected flag is only mutated by the asynchronous onopen and onclose
callbacks, so it is unchanged here. -/
def connectToServer (st : GameClientState) : GameClientState :=
  { st with websocket := some st.wsNext, wsNext := st.wsNext + 1 }

/-- Embedding of GameClient.restartGame: reset the session state to
playing, zero the pause bookkeeping, clear pressedKeys, zero the attack
cooldown, reset and persist the score, clear the whole players map, null
the local player id, re-arm the one-shot viewport guard and zero the
offsets, then reconnect. -/
def restartGame (st : GameClientState) : GameClientState :=
  connectToServer
    { st with
      gameState := GState.playing
      pauseStartTime := 0
      totalPauseTime := 0
      pressedKeys := []
      attackCooldown := 0
      score := ⟨0, 0, 0⟩
      players := []
      myPlayerId := none
      viewportInitialized := false
      viewportOffsetX := 0
      viewportOffsetY := 0 }

/-! ## Concrete states used to evaluate the claims -/

/-- A session in which the local player (id 1) and one opponent (id 2)
are present and the client is connected; used to evaluate restartGame. -/
def restartDemoState : GameClientState :=
  { initState 800 600 with
    gameState := GState.stopped
    myPlayerId := some 1
    players := [⟨1, 10, 10, false⟩, ⟨2, 20, 20, false⟩]
    websocket := some 0
    wsNext := 1
    connected := true
    score := ⟨3, 1, 2⟩
    attackCooldown := 500
    viewportInitialized := true }

/-- World 2048 x 2048, canvas 800 x 600, local player at (1000, 1000),
viewport not yet initialized. -/
def viewportDemoState : GameClientState :=
  { initState 800 600 with
    myPlayerId := some 1
    players := [⟨1, 1000, 1000, false⟩] }

/-- The same scenario after the one-shot centering has run, for the
resize recalculation. -/
def viewportDemoState2 : GameClientState :=
  { viewportDemoState with viewportInitialized := true }

/-- A connected playing session with empty pressed-key set, for the
keyboard claims. -/
def keyDemoState : GameClientState :=
  { initState 800 600 with
    connected := true
    websocket := some 0
    wsNext := 1
    myPlayerId := some 1 }

/-- A connected playing session whose only opponent (id 2, at distance 30
from the origin) is dead, for the dead-target claim. -/
def deadTargetDemoState : GameClientState :=
  { initState 800 600 with
    connected := true
    websocket := some 0
    wsNext := 1
    myPlayerId := some 1
    players := [⟨1, 0, 0, false⟩, ⟨2, 30, 0, true⟩] }

/-! ## Helper lemmas -/

lemma applyScoreOp_total (s : Score) (op : ScoreOp) :
    (applyScoreOp s op).total =
      (applyScoreOp s op).kills - (applyScoreOp s op).deaths := by
  cases op <;> simp [applyScoreOp, addKill, addDeath, updateTotalScore]

lemma foldl_applyScoreOp_total (ops : List ScoreOp) (s : Score)
    (h : ops ≠ []) :
    (List.foldl applyScoreOp s ops).total =
      (List.foldl applyScoreOp s ops).kills -
        (List.foldl applyScoreOp s ops).deaths := by
  induction ops generalizing s with
  | nil => exact absurd rfl h
  | cons op rest ih =>
    cases rest with
    | nil => simpa using applyScoreOp_total s op
    | cons op2 rest2 =>
      simpa using ih (applyScoreOp s op) (by simp)

lemma cooldownStep_tick_eq (c : Int) (h : 0 ≤ c) :
    cooldownStep c CdEvent.tick = max 0 (c - 16) := by
  show (if c > 0 then (if c - 16 < 0 then 0 else c - 16) else c) = max 0 (c - 16)
  split_ifs with h1 h2
  · exact (max_eq_left (by omega)).symm
  · exact (max_eq_right (by omega)).symm
  · have hc : c = 0 := le_antisymm (by omega) h
    subst hc
    decide

lemma cooldownStep_nonneg (c : Int) (e : CdEvent) (h : 0 ≤ c) :
    0 ≤ cooldownStep c e := by
  cases e with
  | tick => rw [cooldownStep_tick_eq c h]; exact le_max_left 0 _
  | serverAttackResult s k => exact h
  | attackIssued => simp [cooldownStep, attackCooldownTime]

lemma max_sub_collapse (x y : Int) (hy : 0 ≤ y) :
    max 0 (max 0 x - y) = max 0 (x - y) := by
  rcases le_total x 0 with hx | hx
  · rw [max_eq_left hx, max_eq_left (by omega), max_eq_left (by omega)]
  · rw [max_eq_right hx]

lemma foldl_cooldownStep_formula (evs : List CdEvent) (c : Int)
    (hno : CdEvent.attackIssued ∉ evs) (hc : 0 ≤ c) :
    List.foldl cooldownStep c evs = max 0 (c - 16 * (countTicks evs : Int)) := by
  induction evs generalizing c with
  | nil =>
    simp only [List.foldl_nil, countTicks]
    rw [Int.natCast_zero, mul_zero, sub_zero, max_eq_right hc]
  | cons e rest ih =>
    cases e with
    | tick =>
      have hrest : CdEvent.attackIssued ∉ rest := fun h => hno (List.mem_cons_of_mem _ h)
      have hstep : 0 ≤ cooldownStep c CdEvent.tick := cooldownStep_nonneg c _ hc
      rw [List.foldl_cons, ih _ hrest hstep, cooldownStep_tick_eq c hc,
        max_sub_collapse _ _ (by positivity)]
      have : c - 16 - 16 * (countTicks rest : Int) =
          c - 16 * (countTicks (CdEvent.tick :: rest) : Int) := by
        simp only [countTicks]
        push_cast
        ring
      rw [this]
    | serverAttackResult s k =>
      have hrest : CdEvent.attackIssued ∉ rest := fun h => hno (List.mem_cons_of_mem _ h)
      rw [List.foldl_cons, show cooldownStep c (CdEvent.serverAttackResult s k) = c from rfl,
        ih _ hrest hc]
      rfl
    | attackIssued => exact absurd (List.mem_cons_self _ _) hno

lemma foldl_cooldownStep_nonneg (evs : List CdEvent) (c : Int) (hc : 0 ≤ c) :
    0 ≤ List.foldl cooldownStep c evs := by
  induction evs generalizing c with
  | nil => exact hc
  | cons e rest ih => exact ih _ (cooldownStep_nonneg c e hc)

lemma findAux_spec (myId : Nat) (x y : ℚ) (l : List PAvatar)
    (best : Option PAvatar) (bd : ℚ) :
    (findAux myId x y l (best, bd) = (best, bd) ∧
      ∀ a ∈ l, a.id ≠ myId → bd ≤ distSq a x y)
    ∨ (∃ l₁ t l₂, l = l₁ ++ t :: l₂ ∧ t.id ≠ myId ∧
        findAux myId x y l (best, bd) = (some t, distSq t x y) ∧
        distSq t x y < bd ∧
        (∀ a ∈ l₁, a.id ≠ myId → distSq t x y < distSq a x y) ∧
        (∀ a ∈ l₂, a.id ≠ myId → distSq t x y ≤ distSq a x y)) := by
  induction l generalizing best bd with
  | nil =>
    left
    exact ⟨rfl, by intro a ha; exact absurd ha (List.not_mem_nil a)⟩
  | cons a rest ih =>
    by_cases hid : a.id = myId
    · rcases ih best bd with ⟨heq, hall⟩ | ⟨l₁, t, l₂, hdec, ht, heq, hlt, h₁, h₂⟩
      · left
        refine ⟨by simp [findAux, hid, heq], ?_⟩
        intro b hb hbid
        rcases List.mem_cons.mp hb with hb | hb
        · exact absurd (hb ▸ hid) hbid
        · exact hall b hb hbid
      · right
        refine ⟨a :: l₁, t, l₂, by simp [hdec], ht,
          by simp [findAux, hid, heq], hlt, ?_, h₂⟩
        intro b hb hbid
        rcases List.mem_cons.mp hb with hb | hb
        · exact absurd (hb ▸ hid) hbid
        · exact h₁ b hb hbid
    · by_cases hcl : distSq a x y < bd
      · rcases ih (some a) (distSq a x y) with ⟨heq, hall⟩ |
          ⟨l₁, t, l₂, hdec, ht, heq, hlt, h₁, h₂⟩
        · right
          exact ⟨[], a, rest, by simp, hid,
            by simp [findAux, hid, hcl, heq], hcl,
            by intro b hb; exact absurd hb (List.not_mem_nil b), hall⟩
        · right
          refine ⟨a :: l₁, t, l₂, by simp [hdec], ht,
            by simp [findAux, hid, hcl, heq], lt_trans hlt hcl, ?_, h₂⟩
          intro b hb hbid
          rcases List.mem_cons.mp hb with hb | hb
          · exact hb ▸ hlt
          · exact h₁ b hb hbid
      · rcases ih best bd with ⟨heq, hall⟩ | ⟨l₁, t, l₂, hdec, ht, heq, hlt, h₁, h₂⟩
        · left
          refine ⟨by simp [findAux, hid, hcl, heq], ?_⟩
          intro b hb hbid
          rcases List.mem_cons.mp hb with hb | hb
          · exact hb ▸ le_of_not_lt hcl
          · exact hall b hb hbid
        · right
          refine ⟨a :: l₁, t, l₂, by simp [hdec], ht,
            by simp [findAux, hid, hcl, heq], hlt, ?_, h₂⟩
          intro b hb hbid
          rcases List.mem_cons.mp hb with hb | hb
          · exact hb ▸ lt_of_lt_of_le hlt (le_of_not_lt hcl)
          · exact h₁ b hb hbid

lemma clampOffset_nonneg (v bound : ℚ) : 0 ≤ clampOffset v bound := by
  unfold clampOffset jsMax jsMin
  split_ifs with h1 h2 h3 <;> first | assumption | exact le_refl 0

lemma clampOffset_le (v bound : ℚ) : clampOffset v bound ≤ max 0 bound := by
  unfold clampOffset jsMax jsMin
  split_ifs with h1 h2 h3
  · exact le_trans h1 (le_max_right 0 bound)
  · exact le_max_left 0 bound
  · exact le_max_right 0 bound
  · exact le_max_left 0 bound

lemma pickFrame_pos (fs : List Nat) (mv : Bool) (af : Nat) (flip : Bool)
    (h : 0 < fs.length) :
    pickFrame fs mv af flip =
      some (fs.get ⟨(if mv then af else 0) % fs.length, Nat.mod_lt _ h⟩, flip) :=
  dif_pos h

lemma pickFrame_nil (mv : Bool) (af : Nat) (flip : Bool) :
    pickFrame [] mv af flip = none :=
  dif_neg (by simp)

lemma findAux_map_isDead (myId : Nat) (x y : ℚ) (f : PAvatar → Bool)
    (l : List PAvatar) (best : Option PAvatar) (bd : ℚ) :
    findAux myId x y (l.map (fun a => { a with isDead := f a }))
        (best.map (fun a => { a with isDead := f a }), bd) =
      ((findAux myId x y l (best, bd)).1.map (fun a => { a with isDead := f a }),
        (findAux myId x y l (best, bd)).2) := by
  induction l generalizing best bd with
  | nil => rfl
  | cons a rest ih =>
    have hda : distSq { a with isDead := f a } x y = distSq a x y := rfl
    have hia : ({ a with isDead := f a } : PAvatar).id = a.id := rfl
    by_cases hid : a.id = myId
    · simp only [List.map_cons, findAux, hia, hda, hid, if_true, if_pos]
      exact ih best bd
    · by_cases hcl : distSq a x y < bd
      · simp only [List.map_cons, findAux, hia, hda, if_neg hid, if_pos hcl]
        exact ih (some a) (distSq a x y)
      · simp only [List.map_cons, findAux, hia, hda, if_neg hid, if_neg hcl]
        exact ih best bd

/-! ## Claim theorems -/

/-- Claim C6: for every starting score state, addKill and addDeath each
increment their counter by one and re-establish total = kills - deaths;
every non-empty sequence of addKill and addDeath calls leaves
total = kills - deaths; and resetScore yields exactly {0, 0, 0}. -/
theorem score_ledger_invariant (s : Score) :
    ((addKill s).kills = s.kills + 1 ∧ (addKill s).deaths = s.deaths ∧
      (addKill s).total = (addKill s).kills - (addKill s).deaths) ∧
    ((addDeath s).deaths = s.deaths + 1 ∧ (addDeath s).kills = s.kills ∧
      (addDeath s).total = (addDeath s).kills - (addDeath s).deaths) ∧
    (∀ ops : List ScoreOp, ops ≠ [] →
      (List.foldl applyScoreOp s ops).total =
        (List.foldl applyScoreOp s ops).kills -
          (List.foldl applyScoreOp s ops).deaths) ∧
    resetScore = (⟨0, 0, 0⟩ : Score) :=
  ⟨⟨rfl, rfl, rfl⟩, ⟨rfl, rfl, rfl⟩,
    fun ops h => foldl_applyScoreOp_total ops s h, rfl⟩

/-- Witness for C6 at the concrete state {3, 1, 2} and the call sequence
addKill then addDeath. -/
theorem score_ledger_invariant_witness :
    ([ScoreOp.kill, ScoreOp.death] ≠ ([] : List ScoreOp)) ∧
    (List.foldl applyScoreOp ⟨3, 1, 2⟩ [ScoreOp.kill, ScoreOp.death]).total =
      (List.foldl applyScoreOp ⟨3, 1, 2⟩ [ScoreOp.kill, ScoreOp.death]).kills -
        (List.foldl applyScoreOp ⟨3, 1, 2⟩ [ScoreOp.kill, ScoreOp.death]).deaths :=
  ⟨by decide,
    (score_ledger_invariant ⟨3, 1, 2⟩).2.2.1 [ScoreOp.kill, ScoreOp.death] (by decide)⟩

/-- Claim C3, counterexample: a persisted record that is present but not
parseable as JSON does not yield the zero state, it raises the JSON.parse
exception (loadScore has no try/catch), refuting the claim at this
concrete input. -/
theorem loadScore_corrupt_raises :
    loadScore (some none) ⟨0, 0, 0⟩ = Except.error () ∧
    loadScore (some none) ⟨0, 0, 0⟩ ≠ Except.ok (⟨0, 0, 0⟩ : Score) :=
  ⟨rfl, fun h => Except.noConfusion h⟩

/-- Claim C3 as amended: a missing record leaves the zero-initialized
score in place, a parseable record yields the stored counters with total
recomputed, and a corrupt record raises an uncaught parse error rather
than yielding the zero state. -/
theorem loadScore_behaviour :
    (∀ current : Score, loadScore none current = Except.ok current) ∧
    (loadScore none ⟨0, 0, 0⟩ = Except.ok (⟨0, 0, 0⟩ : Score)) ∧
    (∀ rec current : Score,
      loadScore (some (some rec)) current = Except.ok (updateTotalScore rec)) ∧
    (∀ current : Score, loadScore (some none) current = Except.error ()) :=
  ⟨fun _ => rfl, rfl, fun _ _ => rfl, fun _ => rfl⟩

/-- Claim C2, counterexample: in a session where the local player (id 1)
is present in the players map, restartGame leaves a players map that does
not contain the local avatar, and it also nulls the local identity,
refuting the claim at this concrete state. -/
theorem restartGame_drops_local_avatar :
    restartDemoState.myPlayerId = some 1 ∧
    (restartDemoState.players.find? (fun a => a.id = 1)).isSome = true ∧
    ((restartGame restartDemoState).players.find? (fun a => a.id = 1)) = none ∧
    (restartGame restartDemoState).myPlayerId = none :=
  ⟨rfl, rfl, rfl, rfl⟩

/-- Claim C2 as amended: restartGame, from any state, transitions to
playing, installs a fresh connection handle, resets the cooldown to 0 and
the score to {0, 0, 0}, re-arms the one-shot viewport guard, clears the
pressed keys, and removes every avatar including the local player,
nulling the local identity. -/
theorem restartGame_resets_session (st : GameClientState) :
    (restartGame st).gameState = GState.playing ∧
    (restartGame st).websocket = some st.wsNext ∧
    (restartGame st).wsNext = st.wsNext + 1 ∧
    (restartGame st).attackCooldown = 0 ∧
    (restartGame st).score = (⟨0, 0, 0⟩ : Score) ∧
    (restartGame st).viewportInitialized = false ∧
    (restartGame st).pressedKeys = [] ∧
    (restartGame st).players = [] ∧
    (restartGame st).myPlayerId = none :=
  ⟨rfl, rfl, rfl, rfl, rfl, rfl, rfl, rfl, rfl⟩

set_option maxRecDepth 8000 in
/-- Claim C1: the code contradicts the claim (and its own comment that
the fallback only runs when the server did not respond). The server
attack-result handler never writes attackCooldown, so whether the 1000 ms
fallback timer synthesizes a kill depends only on how many render ticks
ran, never on server messages: a run in which the server attack message
arrives immediately and 60 ticks (one second at 60 fps) elapse still ends
with cooldown 40 > 0, so the fallback synthesizes a kill anyway. -/
theorem attack_fallback_ignores_server_result :
    (∀ (c : Int) (s k : Bool), cooldownStep c (CdEvent.serverAttackResult s k) = c) ∧
    (∀ evs : List CdEvent, CdEvent.attackIssued ∉ evs →
      (fallbackFires evs = true ↔ countTicks evs < 63)) ∧
    fallbackFires (CdEvent.serverAttackResult true true ::
      List.replicate 60 CdEvent.tick) = true ∧
    cooldownAfterAttack (CdEvent.serverAttackResult true true ::
      List.replicate 60 CdEvent.tick) = 40 := by
  refine ⟨fun c s k => rfl, ?_, by decide, by decide⟩
  intro evs hno
  have hform := foldl_cooldownStep_formula evs attackCooldownTime hno (by decide)
  show decide (0 < List.foldl cooldownStep attackCooldownTime evs) = true ↔
    countTicks evs < 63
  rw [hform, decide_eq_true_eq]
  unfold attackCooldownTime
  constructor
  · intro h
    rcases le_or_lt (1000 - 16 * (countTicks evs : Int)) 0 with h0 | h0
    · rw [max_eq_left h0] at h
      exact absurd h (lt_irrefl 0)
    · omega
  · intro h
    have hpos : 0 < 1000 - 16 * (countTicks evs : Int) := by omega
    exact lt_max_iff.mpr (Or.inr hpos)

/-- Witness for C1: the tick-count characterization applied to the
one-tick trace. -/
theorem attack_fallback_ignores_server_result_witness :
    (CdEvent.attackIssued ∉ [CdEvent.tick]) ∧
    (fallbackFires [CdEvent.tick] = true ↔ countTicks [CdEvent.tick] < 63) :=
  ⟨by decide, attack_fallback_ignores_server_result.2.1 [CdEvent.tick] (by decide)⟩

/-- Claim C9: from any non-negative cooldown, a render tick maps c to
max 0 (c - 16), so the cooldown stays non-negative and never increases on
a tick; issuing an attack is the only event that can increase it, and it
sets it to the fixed attackCooldownTime of 1000 ms; every state reachable
from the initial cooldown 0 is non-negative. -/
theorem cooldown_nonneg_monotone :
    (∀ c : Int, 0 ≤ c →
      cooldownStep c CdEvent.tick = max 0 (c - 16) ∧
      0 ≤ cooldownStep c CdEvent.tick ∧
      cooldownStep c CdEvent.tick ≤ c) ∧
    (∀ c : Int, cooldownStep c CdEvent.attackIssued = attackCooldownTime) ∧
    (∀ (c : Int) (e : CdEvent), e ≠ CdEvent.attackIssued → cooldownStep c e ≤ c) ∧
    (∀ evs : List CdEvent, 0 ≤ List.foldl cooldownStep 0 evs) := by
  refine ⟨?_, fun c => rfl, ?_, fun evs => foldl_cooldownStep_nonneg evs 0 le_rfl⟩
  · intro c hc
    refine ⟨cooldownStep_tick_eq c hc, cooldownStep_nonneg c _ hc, ?_⟩
    rw [cooldownStep_tick_eq c hc]
    exact max_le hc (by omega)
  · intro c e he
    cases e with
    | tick =>
        show (if c > 0 then (if c - 16 < 0 then 0 else c - 16) else c) ≤ c
        split_ifs <;> omega
    | serverAttackResult s k => exact le_rfl
    | attackIssued => exact absurd rfl he

/-- Witness for C9 at cooldown 100 and a tick event. -/
theorem cooldown_nonneg_monotone_witness :
    ((0 : Int) ≤ 100) ∧
    cooldownStep 100 CdEvent.tick = max 0 (100 - 16) ∧
    cooldownStep 100 CdEvent.tick ≤ 100 :=
  ⟨by decide, (cooldown_nonneg_monotone.1 100 (by decide)).1,
    cooldown_nonneg_monotone.2.2.1 100 CdEvent.tick (by decide)⟩

/-- Claim C4: whenever the one-time centering actually initializes the
viewport, and whenever the resize recalculation actually recomputes it,
both offsets satisfy 0 ≤ offset ≤ max 0 (world - canvas); and in the
concrete scenario world 2048 x 2048, canvas 800 x 600, local player at
(1000, 1000), both the centering and the recalculation yield offset
(600, 700). -/
theorem viewport_offset_bounds :
    (∀ st : GameClientState, st.viewportInitialized = false →
      (centerViewportOnMyAvatar st).viewportInitialized = true →
      viewportOffsetWithinBounds (centerViewportOnMyAvatar st)) ∧
    (∀ st : GameClientState, truthyId st.myPlayerId = true →
      st.viewportInitialized = true → lookupMyAvatar st ≠ none →
      viewportOffsetWithinBounds (updateViewport st)) ∧
    ((centerViewportOnMyAvatar viewportDemoState).viewportOffsetX = 600 ∧
      (centerViewportOnMyAvatar viewportDemoState).viewportOffsetY = 700) ∧
    ((updateViewport viewportDemoState2).viewportOffsetX = 600 ∧
      (updateViewport viewportDemoState2).viewportOffsetY = 700) := by
  refine ⟨?_, ?_,
    by
      constructor <;>
        norm_num [centerViewportOnMyAvatar, viewportDemoState, initState,
          lookupMyAvatar, List.find?, clampOffset, jsMin, jsMax],
    by
      constructor <;>
        norm_num [updateViewport, viewportDemoState2, viewportDemoState, initState,
          lookupMyAvatar, truthyId, List.find?, clampOffset, jsMin, jsMax]⟩
  · intro st h0 h1
    cases hl : lookupMyAvatar st with
    | none =>
        have hcc : centerViewportOnMyAvatar st = st := by
          unfold centerViewportOnMyAvatar
          rw [hl]
        rw [hcc] at h1
        exact absurd h1 (by rw [h0]; exact Bool.false_ne_true)
    | some my =>
        by_cases hfit : st.worldWidth ≤ st.canvasWidth ∧ st.worldHeight ≤ st.canvasHeight
        · have hcc : centerViewportOnMyAvatar st =
              { st with
                viewportOffsetX := 0
                viewportOffsetY := 0
                viewportInitialized := true } := by
            unfold centerViewportOnMyAvatar
            rw [hl]
            show (if st.viewportInitialized = true then st else _) = _
            rw [if_neg (by rw [h0]; exact Bool.false_ne_true), if_pos hfit]
          rw [hcc]
          exact ⟨le_refl 0, le_max_left 0 _, le_refl 0, le_max_left 0 _⟩
        · have hcc : centerViewportOnMyAvatar st =
              { st with
                viewportOffsetX := clampOffset (my.x - st.canvasWidth / 2)
                  (st.worldWidth - st.canvasWidth)
                viewportOffsetY := clampOffset (my.y - st.canvasHeight / 2)
                  (st.worldHeight - st.canvasHeight)
                viewportInitialized := true } := by
            unfold centerViewportOnMyAvatar
            rw [hl]
            show (if st.viewportInitialized = true then st else _) = _
            rw [if_neg (by rw [h0]; exact Bool.false_ne_true), if_neg hfit]
          rw [hcc]
          exact ⟨clampOffset_nonneg _ _, clampOffset_le _ _,
            clampOffset_nonneg _ _, clampOffset_le _ _⟩
  · intro st hm h1 hl
    cases hlk : lookupMyAvatar st with
    | none => exact absurd hlk hl
    | some my =>
        have hcc : updateViewport st =
            { st with
              viewportOffsetX := clampOffset (my.x - st.canvasWidth / 2)
                (st.worldWidth - st.canvasWidth)
              viewportOffsetY := clampOffset (my.y - st.canvasHeight / 2)
                (st.worldHeight - st.canvasHeight) } := by
          unfold updateViewport
          rw [if_pos ⟨hm, h1⟩, hlk]
        rw [hcc]
        exact ⟨clampOffset_nonneg _ _, clampOffset_le _ _,
          clampOffset_nonneg _ _, clampOffset_le _ _⟩

/-- Witness for C4: both conjuncts applied at the concrete scenario. -/
theorem viewport_offset_bounds_witness :
    (viewportDemoState.viewportInitialized = false) ∧
    ((centerViewportOnMyAvatar viewportDemoState).viewportInitialized = true) ∧
    viewportOffsetWithinBounds (centerViewportOnMyAvatar viewportDemoState) ∧
    (truthyId viewportDemoState2.myPlayerId = true) ∧
    (viewportDemoState2.viewportInitialized = true) ∧
    (lookupMyAvatar viewportDemoState2 ≠ none) ∧
    viewportOffsetWithinBounds (updateViewport viewportDemoState2) :=
  ⟨rfl, by decide, viewport_offset_bounds.1 viewportDemoState rfl (by decide),
    rfl, rfl, by decide,
    viewport_offset_bounds.2.1 viewportDemoState2 rfl rfl (by decide)⟩

/-- Claim C7: while playing and connected, a key-down of a mapped
direction key adds its code to the pressed-set and sends exactly one move
action; a key-up removes it and sends a stop action exactly when the
pressed-set becomes empty; pressing and releasing one direction key with
no other keys pressed produces exactly one stop message. -/
theorem key_handlers_stop_once (st : GameClientState) (code direction : String)
    (hg : st.gameState = GState.playing) (hc : st.connected = true)
    (hk : keyMap code = some direction) :
    ((handleKeyDown st code).1.pressedKeys = insertKey code st.pressedKeys ∧
      (handleKeyDown st code).2 = [OutMsg.move direction]) ∧
    ((handleKeyUp st code).1.pressedKeys =
        st.pressedKeys.filter (fun k => k ≠ code) ∧
      (handleKeyUp st code).2 =
        (if (st.pressedKeys.filter (fun k => k ≠ code)).length = 0
          then [OutMsg.stop] else [])) ∧
    countStops ((handleKeyDown { st with pressedKeys := [] } code).2 ++
      (handleKeyUp (handleKeyDown { st with pressedKeys := [] } code).1 code).2) = 1 := by
  refine ⟨?_, ?_, ?_⟩
  · simp [handleKeyDown, hg, hk, sendMoveCommand, hc]
  · simp [handleKeyUp, hg, hk, sendStopCommand, hc]
  · simp [handleKeyDown, handleKeyUp, hg, hk, sendMoveCommand, sendStopCommand,
      hc, insertKey, countStops]

/-- Witness for C7: pressing and releasing ArrowUp in a fresh connected
session produces exactly one stop message. -/
theorem key_handlers_stop_once_witness :
    (keyDemoState.gameState = GState.playing) ∧
    (keyDemoState.connected = true) ∧
    (keyMap "ArrowUp" = some "up") ∧
    countStops ((handleKeyDown { keyDemoState with pressedKeys := [] } "ArrowUp").2 ++
      (handleKeyUp (handleKeyDown { keyDemoState with pressedKeys := [] } "ArrowUp").1
        "ArrowUp").2) = 1 :=
  ⟨rfl, rfl, rfl,
    (key_handlers_stop_once keyDemoState "ArrowUp" "up" rfl rfl rfl).2.2⟩

/-- Claim C8: with identical isMoving and animationFrame fields and a
non-empty east frame sequence, getCurrentFrame for facing west returns
the same image as for facing east, with the horizontal-flip flag true for
west and false for east; and whenever the selected frame sequence is
empty the function returns none instead of failing. -/
theorem currentFrame_west_mirrors_east (fr : FrameSets) (mv : Bool) (af : Nat)
    (facing : String) :
    (fr.east ≠ [] →
      ∃ img : Nat,
        getCurrentFrame ⟨"west", mv, af, fr⟩ = some (img, true) ∧
        getCurrentFrame ⟨"east", mv, af, fr⟩ = some (img, false)) ∧
    ((frameSetFor ⟨facing, mv, af, fr⟩).1 = [] →
      getCurrentFrame ⟨facing, mv, af, fr⟩ = none) := by
  constructor
  · intro h
    have hlen : 0 < fr.east.length := List.length_pos.mpr h
    exact ⟨fr.east.get ⟨(if mv then af else 0) % fr.east.length, Nat.mod_lt _ hlen⟩,
      pickFrame_pos fr.east mv af true hlen,
      pickFrame_pos fr.east mv af false hlen⟩
  · intro h
    show pickFrame (frameSetFor ⟨facing, mv, af, fr⟩).1 mv af
      (frameSetFor ⟨facing, mv, af, fr⟩).2 = none
    rw [h]
    exact pickFrame_nil mv af _

/-- Witness for C8 with the two-frame east sequence [10, 11], moving,
animation frame 5. -/
theorem currentFrame_west_mirrors_east_witness :
    ((⟨[], [], [10, 11]⟩ : FrameSets).east ≠ []) ∧
    (∃ img : Nat,
      getCurrentFrame ⟨"west", true, 5, ⟨[], [], [10, 11]⟩⟩ = some (img, true) ∧
      getCurrentFrame ⟨"east", true, 5, ⟨[], [], [10, 11]⟩⟩ = some (img, false)) :=
  ⟨by decide,
    (currentFrame_west_mirrors_east ⟨[], [], [10, 11]⟩ true 5 "south").1 (by decide)⟩

/-- Claim C5: findPlayerInRange returns none exactly when no non-local
avatar lies strictly inside the attack radius of the click point
(distance exactly the radius is excluded), and when it returns a target
the target is a non-local avatar strictly inside the radius, of minimal
distance among all non-local avatars, and strictly closer than every
non-local avatar that precedes it in map-iteration order (so ties go to
the first avatar encountered). Distances are compared in squared form,
which is the same comparison as the square-rooted distances of the
source. -/
theorem findPlayerInRange_nearest_strict (myId : Nat) (players : List PAvatar)
    (x y : ℚ) :
    (findPlayerInRange myId players x y = none ↔
      ∀ a ∈ players, a.id ≠ myId → attackRange ^ 2 ≤ distSq a x y) ∧
    (∀ t, findPlayerInRange myId players x y = some t →
      t.id ≠ myId ∧ distSq t x y < attackRange ^ 2 ∧
      (∀ a ∈ players, a.id ≠ myId → distSq t x y ≤ distSq a x y) ∧
      ∃ l₁ l₂, players = l₁ ++ t :: l₂ ∧
        ∀ a ∈ l₁, a.id ≠ myId → distSq t x y < distSq a x y) := by
  rcases findAux_spec myId x y players none (attackRange ^ 2) with
    ⟨heq, hall⟩ | ⟨l₁, t, l₂, hdec, ht, heq, hlt, h₁, h₂⟩
  · have hfind : findPlayerInRange myId players x y = none := by
      unfold findPlayerInRange
      rw [heq]
    constructor
    · exact ⟨fun _ => hall, fun _ => hfind⟩
    · intro t hsome
      rw [hfind] at hsome
      exact Option.noConfusion hsome
  · have hfind : findPlayerInRange myId players x y = some t := by
      unfold findPlayerInRange
      rw [heq]
    have htmem : t ∈ players := by
      rw [hdec]
      exact List.mem_append_right l₁ (List.mem_cons_self t l₂)
    constructor
    · constructor
      · intro h
        rw [hfind] at h
        exact Option.noConfusion h
      · intro hge
        exact absurd hlt (not_lt.mpr (hge t htmem ht))
    · intro t' hsome
      rw [hfind] at hsome
      have htt : t = t' := Option.some.inj hsome
      subst htt
      refine ⟨ht, hlt, ?_, l₁, l₂, hdec, h₁⟩
      intro a ha haid
      rw [hdec] at ha
      rcases List.mem_append.mp ha with ha | ha
      · exact le_of_lt (h₁ a ha haid)
      · rcases List.mem_cons.mp ha with ha | ha
        · rw [ha]
        · exact h₂ a ha haid

/-- Witness for C5: an opponent at distance 49 from the click point is
selected and is strictly inside the radius; an opponent at distance
exactly 50 is not selected. -/
theorem findPlayerInRange_nearest_strict_witness :
    (findPlayerInRange 1 [⟨2, 49, 0, false⟩] 0 0 = some ⟨2, 49, 0, false⟩) ∧
    distSq ⟨2, 49, 0, false⟩ 0 0 < attackRange ^ 2 ∧
    findPlayerInRange 1 [⟨2, 50, 0, false⟩] 0 0 = none := by
  have h49 : findPlayerInRange 1 [⟨2, 49, 0, false⟩] 0 0 = some ⟨2, 49, 0, false⟩ := by
    norm_num [findPlayerInRange, findAux, distSq, attackRange]
  refine ⟨h49,
    ((findPlayerInRange_nearest_strict 1 [⟨2, 49, 0, false⟩] 0 0).2 _ h49).2.1, ?_⟩
  refine (findPlayerInRange_nearest_strict 1 [⟨2, 50, 0, false⟩] 0 0).1.mpr ?_
  intro a ha haid
  rw [List.mem_singleton] at ha
  subst ha
  norm_num [distSq, attackRange]

/-- Claim C10: click targeting does not exclude dead avatars. Changing
death flags never changes which avatar findPlayerInRange selects; when
the click goes through, the attack message carries the id of whatever
avatar findPlayerInRange selected, dead or not; and in the concrete
session whose only opponent (id 2, in range at distance 30) is dead, the
click sends an attack for id 2 while the HUD in-range census, which skips
dead avatars and compares non-strictly, reports 0 players in range. -/
theorem click_attack_targets_dead_avatars :
    (∀ (myId : Nat) (ps : List PAvatar) (x y : ℚ) (f : PAvatar → Bool),
      findPlayerInRange myId (ps.map (fun a => { a with isDead := f a })) x y =
        Option.map (fun a => { a with isDead := f a })
          (findPlayerInRange myId ps x y)) ∧
    (∀ (st : GameClientState) (cx cy : ℚ) (m : Nat) (t : PAvatar),
      st.connected = true → st.myPlayerId = some m → m ≠ 0 →
      st.gameState = GState.playing → st.attackCooldown ≤ 0 →
      findPlayerInRange m st.players (cx + st.viewportOffsetX)
        (cy + st.viewportOffsetY) = some t →
      (handleCanvasClick st cx cy).2 = [OutMsg.attack t.id]) ∧
    ((handleCanvasClick deadTargetDemoState 0 0).2 = [OutMsg.attack 2] ∧
      deadTargetDemoState.players.find? (fun a => a.id = 2) =
        some ⟨2, 30, 0, true⟩ ∧
      (⟨2, 30, 0, true⟩ : PAvatar).isDead = true ∧
      playersInRangeCount deadTargetDemoState = some 0) := by
  refine ⟨?_, ?_, ?_, rfl, rfl, ?_⟩
  · intro myId ps x y f
    unfold findPlayerInRange
    have h := congrArg Prod.fst (findAux_map_isDead myId x y f ps none (attackRange ^ 2))
    exact h
  · intro st cx cy m t hconn hmy hm0 hg hcd hfind
    unfold handleCanvasClick
    rw [if_neg (by simp [hconn, hmy, truthyId, hm0, hg]), if_neg (not_lt.mpr hcd), hmy]
    show (match findPlayerInRange m st.players (cx + st.viewportOffsetX)
        (cy + st.viewportOffsetY) with
      | some target => attackPlayer st target.id
      | none => (st, [])).2 = [OutMsg.attack t.id]
    rw [hfind]
    show (attackPlayer st t.id).2 = [OutMsg.attack t.id]
    unfold attackPlayer
    rw [if_pos hconn]
  · norm_num [handleCanvasClick, deadTargetDemoState, initState, truthyId,
      screenToWorld, findPlayerInRange, findAux, distSq, attackRange, attackPlayer]
  · norm_num [playersInRangeCount, deadTargetDemoState, initState, truthyId,
      lookupMyAvatar, List.find?, List.filter, distSq, attackRange]

/-- Witness for C10: the click-dispatch conjunct applied at the concrete
dead-opponent session. -/
theorem click_attack_targets_dead_avatars_witness :
    (deadTargetDemoState.connected = true) ∧
    (deadTargetDemoState.myPlayerId = some 1) ∧
    (deadTargetDemoState.gameState = GState.playing) ∧
    (deadTargetDemoState.attackCooldown ≤ 0) ∧
    (findPlayerInRange 1 deadTargetDemoState.players
      (0 + deadTargetDemoState.viewportOffsetX)
      (0 + deadTargetDemoState.viewportOffsetY) = some ⟨2, 30, 0, true⟩) ∧
    (handleCanvasClick deadTargetDemoState 0 0).2 =
      [OutMsg.attack (⟨2, 30, 0, true⟩ : PAvatar).id] := by
  have hfind : findPlayerInRange 1 deadTargetDemoState.players
      (0 + deadTargetDemoState.viewportOffsetX)
      (0 + deadTargetDemoState.viewportOffsetY) = some ⟨2, 30, 0, true⟩ := by
    norm_num [findPlayerInRange, findAux, distSq, attackRange,
      deadTargetDemoState, initState]
  refine ⟨rfl, rfl, rfl, le_refl 0, hfind, ?_⟩
  exact click_attack_targets_dead_avatars.2.1 deadTargetDemoState 0 0 1
    ⟨2, 30, 0, true⟩ rfl rfl (by norm_num) rfl (le_refl 0) hfind

end GameSpec
